import Mathlib

/-
Shallow embedding of the NASA APOD gallery scripts
(src/js/script.js, the date-selector variant, and src/unnamed/part_000,
the plain variant) for the gallery-render / filter / modal-detail pipeline.

Records are JSON objects with optional string fields; an absent field
(JS `undefined`) is `none`.  JS conditionals test truthiness, under which
both `undefined` and the empty string are falsy; the helpers below encode
exactly that.
-/

/-- JS truthiness of an optional string field: `undefined` (`none`) and the
empty string are falsy, every other string is truthy. -/
def strTruthy : Option String → Bool
  | none => false
  | some s => s != ""

/-- JS `a || b` where `a` is an optional string field and `b` a string
default: yields `b` when `a` is falsy (absent or empty), else the value. -/
def jsOr (a : Option String) (b : String) : String :=
  match a with
  | none => b
  | some s => if s = "" then b else s

/-- The value of a JS expression collapsed to `none` when falsy: used to
model chains like `item.thumbnail_url || getYouTubeThumbnail(item.url)`
followed by a truthiness test. -/
def truthyVal (o : Option String) : Option String :=
  if strTruthy o then o else none

/-- JS `a || b` on two optional strings, with falsy values collapsed to
`none`. -/
def jsOrOpt (a b : Option String) : Option String :=
  match truthyVal a with
  | some s => some s
  | none => truthyVal b

/-- One record of the APOD JSON feed (external, provider-defined).  Every
field the scripts read is an optional string. -/
structure MediaRecord where
  date : Option String
  title : Option String
  explanation : Option String
  media_type : Option String
  url : Option String
  hdurl : Option String
  thumbnail_url : Option String
  deriving DecidableEq

/-- English month names as produced by the host locale formatter for
`en-US`; out-of-range months make the JS `Date` invalid. -/
def monthName (m : Nat) : String :=
  match m with
  | 1 => "January"
  | 2 => "February"
  | 3 => "March"
  | 4 => "April"
  | 5 => "May"
  | 6 => "June"
  | 7 => "July"
  | 8 => "August"
  | 9 => "September"
  | 10 => "October"
  | 11 => "November"
  | 12 => "December"
  | _ => "Invalid Date"

/-- `formatDate` from src/js/script.js lines 30-42: returns the empty
string for a falsy input, otherwise formats `YYYY-MM-DD` as
`"Month D, YYYY"`.  The call to the host `toLocaleDateString` is modelled
by the function's own documented example (`"2021-04-15"` becomes
`"April 15, 2021"`); a string the host cannot parse as a date renders as
`"Invalid Date"`. -/
def formatDate (dateString : Option String) : String :=
  match dateString with
  | none => ""
  | some s =>
    if s = "" then ""
    else
      match s.splitOn "-" with
      | [y, m, d] =>
        match m.toNat?, d.toNat? with
        | some mn, some dn =>
          if 1 ≤ mn ∧ mn ≤ 12 then monthName mn ++ " " ++ toString dn ++ ", " ++ y
          else "Invalid Date"
        | _, _ => "Invalid Date"
      | _ => "Invalid Date"

/-- The date filter applied by the click and change handlers of
src/js/script.js (lines 104-112 and 127-132):
`selectedDate ? allItems.filter(item => item.date === selectedDate) : allItems`.
The selector value is always a string; the empty string (the
"All dates" option) means no filter. -/
def visibleRecords (records : List MediaRecord) (selectedDate : String) :
    List MediaRecord :=
  if selectedDate ≠ "" then
    records.filter (fun item => item.date == some selectedDate)
  else records

/-- Lexicographic comparison of char sequences by code point: the order
`localeCompare` induces on `YYYY-MM-DD` date strings. -/
def charListLe : List Char → List Char → Bool
  | [], _ => true
  | _ :: _, [] => false
  | a :: as, b :: bs =>
    if a.toNat < b.toNat then true
    else if b.toNat < a.toNat then false
    else charListLe as bs

/-- `a.localeCompare(b) <= 0` for date strings: lexicographic order. -/
def dateLe (a b : String) : Bool := charListLe a.data b.data

/-- Stable insertion of a date into a descending-sorted list. -/
def insertDateDesc (a : String) : List String → List String
  | [] => [a]
  | b :: bs => if dateLe b a then a :: b :: bs else b :: insertDateDesc a bs

/-- Model of `dates.sort((a, b) => b.localeCompare(a))` from
src/js/script.js line 285: the host sort is a stable sort by the given
comparator, which for `en` locale on `YYYY-MM-DD` strings is descending
lexicographic order; insertion sort realises that contract. -/
def sortDatesDescending : List String → List String
  | [] => []
  | a :: as => insertDateDesc a (sortDatesDescending as)

/-- The list of date option values built by `populateDateSelector`
(src/js/script.js lines 277-295), beyond the fixed "All dates" entry:
`items.map(item => item.date).filter(date => date)` sorted descending.
Note the source applies no deduplication. -/
def availableDates (items : List MediaRecord) : List String :=
  sortDatesDescending ((items.map (fun item => item.date)).filterMap truthyVal)

-- Basic facts about the truthiness helpers, shared by the claim proofs.

theorem strTruthy_eq_false_iff (o : Option String) :
    strTruthy o = false ↔ o = none ∨ o = some "" := by
  cases o with
  | none => simp [strTruthy]
  | some s =>
    simp only [strTruthy, bne_iff_ne, ne_eq]
    constructor
    · intro h
      right
      simpa using h
    · rintro (h | h) <;> simp_all

theorem jsOr_of_falsy (o : Option String) (d : String)
    (h : strTruthy o = false) : jsOr o d = d := by
  rcases (strTruthy_eq_false_iff o).mp h with h' | h' <;> simp [jsOr, h']

theorem jsOr_of_truthy (o : Option String) (d : String)
    (h : strTruthy o = true) : jsOr o d = o.getD "" := by
  cases o with
  | none => simp [strTruthy] at h
  | some s =>
    simp only [strTruthy, bne_iff_ne, ne_eq, decide_eq_true_eq] at h
    simp [jsOr, h]

theorem truthyVal_of_falsy (o : Option String) (h : strTruthy o = false) :
    truthyVal o = none := by
  simp [truthyVal, h]

/-- Media part of a gallery card built by `createGalleryItem`
(src/js/script.js lines 177-214; the classification in
src/unnamed/part_000 lines 108-145 is identical). -/
inductive CardMedia
  | inlineImage (src : String) (alt : String)
  | linkedThumb (href : String) (src : String) (alt : String)
  | openLink (href : String)
  | noMedia
  deriving DecidableEq

/-- The classification branch of `createGalleryItem`, evaluated in source
order with first match winning. -/
def cardMedia (item : MediaRecord) : CardMedia :=
  if item.media_type == some "image" && strTruthy item.url then
    .inlineImage (item.url.getD "") (jsOr item.title "Untitled")
  else if strTruthy item.url then
    if strTruthy item.thumbnail_url then
      .linkedThumb (item.url.getD "") (item.thumbnail_url.getD "")
        (jsOr item.title "Untitled")
    else .openLink (item.url.getD "")
  else .noMedia

/-- One gallery card as produced by `createGalleryItem` in
src/js/script.js lines 166-254 (title, formatted date, media,
accessibility label). -/
structure CardPresentation where
  titleText : String
  dateText : String
  media : CardMedia
  ariaLabel : String
  deriving DecidableEq

/-- `createGalleryItem` from src/js/script.js lines 166-254. -/
def createGalleryItem (item : MediaRecord) : CardPresentation :=
  { titleText := jsOr item.title "Untitled"
    dateText := formatDate item.date
    media := cardMedia item
    ariaLabel := jsOr item.title "Item" ++ " — " ++ jsOr item.date ""
      ++ " — Press Enter to open details" }

/-- Whether `pat` is a prefix of the second char sequence. -/
def charPrefix : List Char → List Char → Bool
  | [], _ => true
  | _ :: _, [] => false
  | p :: ps, c :: cs => if p = c then charPrefix ps cs else false

/-- The remainder after the first occurrence of `pat` inside a char
sequence, when `pat` occurs at all. -/
def findSub (pat : List Char) : List Char → Option (List Char)
  | [] => if pat.isEmpty then some [] else none
  | c :: cs =>
    if charPrefix pat (c :: cs) then some ((c :: cs).drop pat.length)
    else findSub pat cs

/-- The chars before the first stop char. -/
def takeUntil (stops : List Char) : List Char → List Char
  | [] => []
  | c :: cs => if c ∈ stops then [] else c :: takeUntil stops cs

/-- Modelled from the spec: the URL-pattern recognition inside
`getYouTubeThumbnail` and `getYouTubeEmbedUrl`, which are called by
`openModal` in src/js/script.js (lines 327 and 342) but whose definitions
are not among the provided sources.  Per spec section 4.4 rule 2 and
section 9, a recognized external video-hosting URL pattern (YouTube
watch or short-link URLs) yields the video id, and any non-recognized
host yields nothing (non-embeddable). -/
def extractYouTubeId (url : Option String) : Option String :=
  match url with
  | none => none
  | some s =>
    match findSub "youtube.com/watch?v=".data s.data with
    | some rest => some (String.mk (takeUntil ['&'] rest))
    | none =>
      match findSub "youtu.be/".data s.data with
      | some rest => some (String.mk (takeUntil ['?'] rest))
      | none => none

/-- Modelled from the spec: `getYouTubeThumbnail` (called at
src/js/script.js line 327, definition missing from the sources) derives a
thumbnail image URL from a recognized YouTube URL, and returns nothing
for an unrecognized host. -/
def getYouTubeThumbnail (url : Option String) : Option String :=
  (extractYouTubeId url).map
    (fun vid => "https://img.youtube.com/vi/" ++ vid ++ "/hqdefault.jpg")

/-- Modelled from the spec: `getYouTubeEmbedUrl` (called at
src/js/script.js line 342, definition missing from the sources) derives a
safe inline-embeddable URL from a recognized YouTube URL, and returns
nothing for an unrecognized host. -/
def getYouTubeEmbedUrl (url : Option String) : Option String :=
  (extractYouTubeId url).map
    (fun vid => "https://www.youtube.com/embed/" ++ vid)

/-- The video branch of the modal media area
(src/js/script.js lines 325-378): a thumbnail image when one is
available, otherwise the "Video (no thumbnail available)." message; a
"Play inline" button only when an embed URL was derived; and the always
present "Open video in new tab" link with the record's url. -/
structure VideoMedia where
  thumbnail : Option String
  noThumbMessage : Bool
  playInline : Option String
  openInNewTab : Option String
  deriving DecidableEq

/-- Media part of the modal detail view built by `openModal`
(src/js/script.js lines 318-387). -/
inductive ModalMedia
  | image (src : String) (alt : String)
  | video (v : VideoMedia)
  | link (href : String)
  | noMedia
  deriving DecidableEq

/-- The media classification of `openModal`, evaluated in source order. -/
def modalMediaOf (item : MediaRecord) : ModalMedia :=
  if item.media_type == some "image"
      && (strTruthy item.hdurl || strTruthy item.url) then
    .image (jsOr item.hdurl (jsOr item.url "")) (jsOr item.title "Image")
  else if item.media_type == some "video" then
    let thumbSrc := jsOrOpt item.thumbnail_url (getYouTubeThumbnail item.url)
    .video { thumbnail := thumbSrc
             noThumbMessage := thumbSrc.isNone
             playInline := getYouTubeEmbedUrl item.url
             openInNewTab := item.url }
  else if strTruthy item.url then
    .link (item.url.getD "")
  else .noMedia

/-- The modal detail view produced by `openModal`
(src/js/script.js lines 306-394). -/
structure ModalPresentation where
  titleText : String
  dateText : String
  explanationText : String
  media : ModalMedia
  deriving DecidableEq

/-- `openModal` from src/js/script.js lines 306-394, as the pure view it
writes into the modal containers. -/
def openModal (item : MediaRecord) : ModalPresentation :=
  { titleText := jsOr item.title "Untitled"
    dateText := formatDate item.date
    explanationText := jsOr item.explanation ""
    media := modalMediaOf item }

/-- The errors `fetchCdnJson` can throw (src/js/script.js lines 148-163):
a non-ok HTTP status, a body `resp.json()` cannot parse, or a parsed
value that is not an array. -/
inductive LoadError
  | networkError (status : Nat)
  | parseError
  | invalidShape
  deriving DecidableEq

/-- Top-level shape of the parsed response body: an array of records, or
any other JSON value. -/
inductive JsonShape
  | arr (records : List MediaRecord)
  | nonArray
  deriving DecidableEq

/-- An HTTP response as `fetchCdnJson` observes it: a status code and a
body that either parses to some JSON shape or fails to parse (`none`). -/
structure HttpResponse where
  status : Nat
  body : Option JsonShape
  deriving DecidableEq

/-- `resp.ok` of the Fetch API: status in the 2xx range. -/
def respOk (r : HttpResponse) : Bool :=
  200 ≤ r.status && r.status < 300

/-- `fetchCdnJson` from src/js/script.js lines 148-163, as a function of
the response the network delivers: throws `networkError` on a non-ok
status, `parseError` when the body does not parse, `invalidShape` when
the parsed value is not an array, and returns the array otherwise. -/
def fetchCdnJson (resp : HttpResponse) : Except LoadError (List MediaRecord) :=
  if ¬ respOk resp then .error (.networkError resp.status)
  else
    match resp.body with
    | none => .error .parseError
    | some .nonArray => .error .invalidShape
    | some (.arr data) => .ok data

/-- Contents of the gallery container, parametrised by the card type of
the variant. -/
inductive GalleryViewG (α : Type)
  | initial
  | loadingMsg
  | errorMsg
  | emptyMsg
  | rendered (cards : List α)
  deriving DecidableEq

/-- Gallery contents in the date-selector variant. -/
abbrev GalleryView := GalleryViewG CardPresentation

/-- `renderGallery` from src/js/script.js lines 257-274: the
"No items found." placeholder for an empty list, else one card per
item. -/
def renderGallery (items : List MediaRecord) : GalleryView :=
  if items.isEmpty then .emptyMsg
  else .rendered (items.map createGalleryItem)

/-- The page state mutated by the handlers of src/js/script.js: the
cached record set, the date selector (its value, option values and
disabled flag), the gallery contents, and the fetch button state. -/
structure AppState where
  allItems : List MediaRecord
  dateSelectorValue : String
  dateOptions : List String
  galleryView : GalleryView
  getImageBtnDisabled : Bool
  getImageBtnText : String
  dateSelectorDisabled : Bool
  deriving DecidableEq

/-- The page state right after `init` wires the handlers. -/
def initialState : AppState :=
  { allItems := []
    dateSelectorValue := ""
    dateOptions := []
    galleryView := .initial
    getImageBtnDisabled := false
    getImageBtnText := "Get Space Images"
    dateSelectorDisabled := false }

/-- The `getImageBtn` click handler of src/js/script.js lines 86-121, as
a step function.  `fetchResult` is the outcome the network would deliver,
consulted only when the handler actually fetches (`allItems` empty); the
returned flag records whether a network fetch was performed.  The
`finally` block re-enables both controls and restores the button text on
every path. -/
def getImagesClick (s : AppState)
    (fetchResult : Except LoadError (List MediaRecord)) : AppState × Bool :=
  let s1 : AppState :=
    { s with getImageBtnDisabled := true
             dateSelectorDisabled := true
             getImageBtnText := "Loading..."
             galleryView := .loadingMsg }
  if s1.allItems.isEmpty then
    match fetchResult with
    | .ok data =>
      let s2 : AppState :=
        { s1 with allItems := data, dateOptions := availableDates data }
      let s3 : AppState :=
        { s2 with galleryView :=
            renderGallery (visibleRecords s2.allItems s2.dateSelectorValue) }
      ({ s3 with getImageBtnDisabled := false
                 dateSelectorDisabled := false
                 getImageBtnText := "Get Space Images" }, true)
    | .error _ =>
      ({ s1 with galleryView := .errorMsg
                 getImageBtnDisabled := false
                 dateSelectorDisabled := false
                 getImageBtnText := "Get Space Images" }, true)
  else
    ({ s1 with galleryView :=
          renderGallery (visibleRecords s1.allItems s1.dateSelectorValue)
               getImageBtnDisabled := false
               dateSelectorDisabled := false
               getImageBtnText := "Get Space Images" }, false)

/-- The `dateSelector` change handler of src/js/script.js lines 124-137,
as a step function.  The DOM has already stored the new selector value
when the handler runs.  The two flags record the handler's effects: it
never fetches, and it re-renders only when `allItems` is non-empty. -/
def dateSelectorChange (s : AppState) (newValue : String) :
    AppState × Bool × Bool :=
  let s1 : AppState := { s with dateSelectorValue := newValue }
  if s1.allItems.length > 0 then
    ({ s1 with galleryView :=
        renderGallery (visibleRecords s1.allItems newValue) }, false, true)
  else (s1, false, false)

/-- One gallery card of the plain variant (src/unnamed/part_000 lines
90-170): a combined title/date line plus the same media classification. -/
structure PlainCard where
  metaText : String
  ariaLabel : String
  media : CardMedia
  deriving DecidableEq

/-- `createGalleryItem` from src/unnamed/part_000 lines 90-170. -/
def createGalleryItemPlain (item : MediaRecord) : PlainCard :=
  { metaText := jsOr item.title "Untitled" ++ " — " ++ jsOr item.date ""
    ariaLabel := jsOr item.title "Item" ++ " — " ++ jsOr item.date ""
      ++ " — Press Enter to open details"
    media := cardMedia item }

/-- Gallery contents in the plain variant. -/
abbrev PlainGalleryView := GalleryViewG PlainCard

/-- `renderGallery` from src/unnamed/part_000 lines 173-190. -/
def renderGalleryPlain (items : List MediaRecord) : PlainGalleryView :=
  if items.isEmpty then .emptyMsg
  else .rendered (items.map createGalleryItemPlain)

/-- The `getImageBtn` click handler of the plain variant
(src/unnamed/part_000 lines 40-61): it keeps no cache and performs a
network fetch on every activation; the returned flag records that a
fetch was performed. -/
def getImagesClickPlain
    (fetchResult : Except LoadError (List MediaRecord)) :
    PlainGalleryView × Bool :=
  match fetchResult with
  | .ok items => (renderGalleryPlain items, true)
  | .error _ => (.errorMsg, true)

/-- Contents of the `#modalMedia` container: empty after a clear, the
media area produced on open, or a live inline video embed after the
"Play inline" button was pressed. -/
inductive ModalContent
  | cleared
  | media (m : ModalMedia)
  | videoEmbed (src : String)
  deriving DecidableEq

/-- The modal DOM as the close paths observe it: the `aria-hidden`
attribute (true means closed; the spec's `openRecord = None`) and the
current contents of the media container, alongside the text containers. -/
structure ModalDom where
  ariaHidden : Bool
  content : ModalContent
  titleText : String
  dateText : String
  explanationText : String
  deriving DecidableEq

/-- `closeModal` from src/js/script.js lines 396-401: sets
`aria-hidden="true"` and clears the media container (stopping any
playback). -/
def closeModal (m : ModalDom) : ModalDom :=
  { m with ariaHidden := true, content := .cleared }

/-- The close-button click route (src/js/script.js line 404). -/
def closeBtnClickRoute (m : ModalDom) : ModalDom :=
  closeModal m

/-- The overlay click route (src/js/script.js line 405). -/
def overlayClickRoute (m : ModalDom) : ModalDom :=
  closeModal m

/-- The window keydown route (src/js/script.js lines 406-410): closes
only on Escape and only while the modal is open. -/
def escapeKeydownRoute (key : String) (m : ModalDom) : ModalDom :=
  if key == "Escape" && m.ariaHidden == false then closeModal m else m

/-- A concrete image record of the feed, with every optional field
present, used to instantiate the general theorems. -/
def sampleImageRecord : MediaRecord :=
  { date := some "2024-01-01"
    title := some "Test"
    explanation := some "An explanation."
    media_type := some "image"
    url := some "https://x/img.png"
    hdurl := some "https://x/img-hd.png"
    thumbnail_url := some "https://x/thumb.png" }

/-- A concrete video record hosted outside any recognized video host,
with no feed-provided thumbnail. -/
def sampleVideoRecord : MediaRecord :=
  { date := some "2024-02-02"
    title := some "Vid"
    explanation := none
    media_type := some "video"
    url := some "https://player.example.com/v/123"
    hdurl := none
    thumbnail_url := none }

/-- A concrete record with every optional field absent. -/
def sampleEmptyRecord : MediaRecord :=
  { date := none
    title := none
    explanation := none
    media_type := none
    url := none
    hdurl := none
    thumbnail_url := none }

/-- C1: for every record sequence and filter value, `visibleRecords`
returns exactly the input when the filter is empty, and otherwise exactly
the in-order subsequence of records whose `date` string-equals the
filter; a non-empty filter matching no record yields the empty sequence,
never an error. -/
theorem visibleRecords_filter_spec (records : List MediaRecord) (d : String) :
    visibleRecords records "" = records ∧
    (d ≠ "" → visibleRecords records d
        = records.filter (fun item => item.date == some d)) ∧
    (d ≠ "" → (∀ r ∈ records, r.date ≠ some d) →
        visibleRecords records d = []) ∧
    (d ≠ "" → (visibleRecords records d).Sublist records) := by
  refine ⟨by simp [visibleRecords], ?_, ?_, ?_⟩
  · intro h
    simp [visibleRecords, h]
  · intro h hnone
    simp only [visibleRecords, if_pos h]
    rw [List.filter_eq_nil_iff]
    intro a ha
    simpa using hnone a ha
  · intro h
    simp only [visibleRecords, if_pos h]
    exact List.filter_sublist records

/-- C1 witness: a concrete non-empty filter matching no record yields the
empty sequence. -/
theorem visibleRecords_filter_spec_witness :
    visibleRecords [sampleImageRecord] "1999-12-31" = [] :=
  (visibleRecords_filter_spec [sampleImageRecord] "1999-12-31").2.2.1
    (by decide) (by decide)

/-- C2: evaluating the date-selector option list of
`populateDateSelector` at records dated 2021-01-01, 2021-03-05 and
2021-01-01.  The result is sorted descending but keeps the duplicate
date as two entries, against the claim (and the comment at
src/js/script.js line 281, which promises unique dates): the code never
deduplicates. -/
theorem availableDates_keeps_duplicates :
    availableDates
      [{ sampleEmptyRecord with date := some "2021-01-01" },
       { sampleEmptyRecord with date := some "2021-03-05" },
       { sampleEmptyRecord with date := some "2021-01-01" }]
      = ["2021-03-05", "2021-01-01", "2021-01-01"] := by decide

/-- C7: a record with `media_type = "image"` and a truthy `url` is always
classified by the card renderer as the inline-image presentation sourced
from `url` — regardless of `thumbnail_url` — and never as the linked
thumbnail case; the branches are evaluated in order with first match
winning. -/
theorem cardMedia_image_precedence (r : MediaRecord)
    (hm : r.media_type = some "image") (hu : strTruthy r.url = true) :
    (createGalleryItem r).media
      = CardMedia.inlineImage (r.url.getD "") (jsOr r.title "Untitled") ∧
    ∀ href src alt, (createGalleryItem r).media ≠ CardMedia.linkedThumb href src alt := by
  have heq : (createGalleryItem r).media
      = CardMedia.inlineImage (r.url.getD "") (jsOr r.title "Untitled") := by
    simp [createGalleryItem, cardMedia, hm, hu]
  refine ⟨heq, fun href src alt h => ?_⟩
  rw [heq] at h
  exact absurd h (by simp)

/-- C7 witness: a concrete image record with both `url` and
`thumbnail_url` present renders as the inline image sourced from `url`. -/
theorem cardMedia_image_precedence_witness :
    (createGalleryItem sampleImageRecord).media
      = CardMedia.inlineImage "https://x/img.png" "Test" := by
  have h := cardMedia_image_precedence sampleImageRecord (by decide) (by decide)
  simpa [sampleImageRecord, jsOr] using h.1

/-- C8: for an image record the modal prefers `hdurl` whenever it is
truthy, falls back to `url` when only `url` is truthy, and shows no
media element when neither is. -/
theorem modalMedia_image_source (r : MediaRecord)
    (hm : r.media_type = some "image") :
    (strTruthy r.hdurl = true →
      (openModal r).media = ModalMedia.image (r.hdurl.getD "") (jsOr r.title "Image")) ∧
    (strTruthy r.hdurl = false → strTruthy r.url = true →
      (openModal r).media = ModalMedia.image (r.url.getD "") (jsOr r.title "Image")) ∧
    (strTruthy r.hdurl = false → strTruthy r.url = false →
      (openModal r).media = ModalMedia.noMedia) := by
  refine ⟨?_, ?_, ?_⟩
  · intro h1
    simp [openModal, modalMediaOf, hm, h1, jsOr_of_truthy]
  · intro h1 h2
    simp [openModal, modalMediaOf, hm, h1, h2, jsOr_of_falsy, jsOr_of_truthy]
  · intro h1 h2
    simp [openModal, modalMediaOf, hm, h1, h2]

/-- C8 witness: a concrete image record with both `hdurl` and `url`
present uses `hdurl` as the modal media source. -/
theorem modalMedia_image_source_witness :
    (openModal sampleImageRecord).media
      = ModalMedia.image "https://x/img-hd.png" "Test" := by
  have h := modalMedia_image_source sampleImageRecord (by decide)
  simpa [sampleImageRecord, jsOr] using h.1 (by decide)

theorem formatDate_of_falsy (o : Option String) (h : strTruthy o = false) :
    formatDate o = "" := by
  rcases (strTruthy_eq_false_iff o).mp h with h' | h' <;> simp [formatDate, h']

theorem extractYouTubeId_of_falsy (u : Option String)
    (h : strTruthy u = false) : extractYouTubeId u = none := by
  rcases (strTruthy_eq_false_iff u).mp h with h' | h' <;> subst h' <;> decide

theorem jsOrOpt_of_falsy (a b : Option String) (ha : strTruthy a = false)
    (hb : b = none) : jsOrOpt a b = none := by
  unfold jsOrOpt
  rw [truthyVal_of_falsy _ ha, hb]
  rfl

/-- C3: every record renders, whatever optional fields are missing: a
falsy title degrades to "Untitled" in both the card and the modal, a
falsy date to the empty date text, a falsy explanation to the empty
body text, a falsy url to a card without a media element, and a record
with no usable media source yields a modal with either no media element
or the safe no-thumbnail video presentation — never a failure. -/
theorem render_defaults_safe (r : MediaRecord) :
    (strTruthy r.title = false →
      (createGalleryItem r).titleText = "Untitled" ∧
      (openModal r).titleText = "Untitled") ∧
    (strTruthy r.date = false →
      (createGalleryItem r).dateText = "" ∧ (openModal r).dateText = "") ∧
    (strTruthy r.explanation = false → (openModal r).explanationText = "") ∧
    (strTruthy r.url = false → (createGalleryItem r).media = CardMedia.noMedia) ∧
    (strTruthy r.url = false → strTruthy r.hdurl = false →
      strTruthy r.thumbnail_url = false →
      (openModal r).media = ModalMedia.noMedia ∨
      (openModal r).media = ModalMedia.video
        { thumbnail := none, noThumbMessage := true,
          playInline := none, openInNewTab := r.url }) := by
  refine ⟨?_, ?_, ?_, ?_, ?_⟩
  · intro h
    exact ⟨jsOr_of_falsy _ _ h, jsOr_of_falsy _ _ h⟩
  · intro h
    exact ⟨formatDate_of_falsy _ h, formatDate_of_falsy _ h⟩
  · intro h
    exact jsOr_of_falsy _ _ h
  · intro h
    simp [createGalleryItem, cardMedia, h]
  · intro hu hh ht
    have hyt : getYouTubeThumbnail r.url = none := by
      simp [getYouTubeThumbnail, extractYouTubeId_of_falsy r.url hu]
    have hye : getYouTubeEmbedUrl r.url = none := by
      simp [getYouTubeEmbedUrl, extractYouTubeId_of_falsy r.url hu]
    cases hv : (r.media_type == some "video") with
    | true =>
      right
      have hthumb : jsOrOpt r.thumbnail_url (getYouTubeThumbnail r.url) = none :=
        jsOrOpt_of_falsy _ _ ht hyt
      simp [openModal, modalMediaOf, hh, hu, hv, hye, hthumb]
    | false =>
      left
      simp [openModal, modalMediaOf, hh, hu, hv]

/-- C3 witness: the record with every optional field absent renders a
card titled "Untitled" with empty date text and no media element, and a
modal with empty explanation and no media element. -/
theorem render_defaults_safe_witness :
    (createGalleryItem sampleEmptyRecord).titleText = "Untitled" ∧
    (createGalleryItem sampleEmptyRecord).dateText = "" ∧
    (openModal sampleEmptyRecord).explanationText = "" ∧
    (createGalleryItem sampleEmptyRecord).media = CardMedia.noMedia := by
  have h := render_defaults_safe sampleEmptyRecord
  exact ⟨(h.1 (by decide)).1, (h.2.1 (by decide)).1,
    h.2.2.1 (by decide), h.2.2.2.1 (by decide)⟩

/-- C4: for a video record whose url matches no recognized video-hosting
pattern and whose thumbnail is falsy, the modal media is the video
presentation with the no-thumbnail message shown, no Play inline action,
and the always-present open-in-new-tab link to the record's url. -/
theorem modalMedia_video_unrecognized (r : MediaRecord)
    (hm : r.media_type = some "video")
    (ht : strTruthy r.thumbnail_url = false)
    (hid : extractYouTubeId r.url = none) :
    (openModal r).media = ModalMedia.video
      { thumbnail := none, noThumbMessage := true,
        playInline := none, openInNewTab := r.url } := by
  have hyt : getYouTubeThumbnail r.url = none := by
    simp [getYouTubeThumbnail, hid]
  have hye : getYouTubeEmbedUrl r.url = none := by
    simp [getYouTubeEmbedUrl, hid]
  have hthumb : jsOrOpt r.thumbnail_url (getYouTubeThumbnail r.url) = none :=
    jsOrOpt_of_falsy _ _ ht hyt
  simp [openModal, modalMediaOf, hm, hye, hthumb]

/-- C4 witness: a concrete video record hosted on an unrecognized host
with no thumbnail gets the no-thumbnail message, no Play inline action,
and the open-in-new-tab link to its url. -/
theorem modalMedia_video_unrecognized_witness :
    (openModal sampleVideoRecord).media = ModalMedia.video
      { thumbnail := none, noThumbMessage := true, playInline := none,
        openInNewTab := some "https://player.example.com/v/123" } := by
  have h := modalMedia_video_unrecognized sampleVideoRecord
    (by decide) (by decide) (by decide)
  simpa [sampleVideoRecord] using h

/-- A concrete open modal showing a live inline video embed. -/
def sampleOpenModal : ModalDom :=
  { ariaHidden := false
    content := .videoEmbed "https://www.youtube.com/embed/abc"
    titleText := "Vid"
    dateText := "February 2, 2024"
    explanationText := "" }

/-- C9: on an open modal, the Escape route, the overlay-click route and
the close-control route all act exactly as `closeModal`: the modal is
marked closed, the media container (and any live inline embed in it) is
cleared, and every other field is unchanged. -/
theorem modalClose_routes_equiv (m : ModalDom) (hopen : m.ariaHidden = false) :
    escapeKeydownRoute "Escape" m = closeModal m ∧
    closeBtnClickRoute m = closeModal m ∧
    overlayClickRoute m = closeModal m ∧
    (closeModal m).ariaHidden = true ∧
    (closeModal m).content = ModalContent.cleared ∧
    (closeModal m).titleText = m.titleText ∧
    (closeModal m).dateText = m.dateText ∧
    (closeModal m).explanationText = m.explanationText := by
  refine ⟨?_, rfl, rfl, rfl, rfl, rfl, rfl, rfl⟩
  simp [escapeKeydownRoute, hopen]

/-- C9 witness: the three routes agree on a concrete open modal holding
a live embed, and they clear the embed. -/
theorem modalClose_routes_equiv_witness :
    escapeKeydownRoute "Escape" sampleOpenModal = closeModal sampleOpenModal ∧
    (closeModal sampleOpenModal).content = ModalContent.cleared :=
  ⟨(modalClose_routes_equiv sampleOpenModal rfl).1,
   (modalClose_routes_equiv sampleOpenModal rfl).2.2.2.2.1⟩

/-- C10: a date-selector change while the stored record set is empty
only stores the selector's new value: it performs no fetch, no
re-render, and leaves the gallery and the rest of the state unchanged. -/
theorem dateSelectorChange_empty_noop (s : AppState) (v : String)
    (h : s.allItems = []) :
    dateSelectorChange s v = ({ s with dateSelectorValue := v }, false, false) ∧
    (dateSelectorChange s v).1.galleryView = s.galleryView ∧
    (dateSelectorChange s v).1.allItems = s.allItems := by
  refine ⟨?_, ?_, ?_⟩ <;> simp [dateSelectorChange, h]

/-- C10 witness: a concrete change on the initial (empty) state only
stores the new selector value. -/
theorem dateSelectorChange_empty_noop_witness :
    dateSelectorChange initialState "2024-01-01"
      = ({ initialState with dateSelectorValue := "2024-01-01" }, false, false) :=
  (dateSelectorChange_empty_noop initialState "2024-01-01" rfl).1

/-- C6: `fetchCdnJson` fails exactly when the HTTP status is outside the
2xx range, the body does not parse, or the parsed top-level value is not
an array; and when the fetch-button click runs into such a failure, the
stored record set is unchanged, the gallery shows the generic error
placeholder, and the button and the selector return to their enabled
ready state with the ready label. -/
theorem fetchCdnJson_failure_spec (resp : HttpResponse) (s : AppState) :
    ((∃ e, fetchCdnJson resp = .error e) ↔
      (¬ (200 ≤ resp.status ∧ resp.status < 300) ∨ resp.body = none ∨
        resp.body = some JsonShape.nonArray)) ∧
    (∀ e, fetchCdnJson resp = .error e → s.allItems = [] →
      (getImagesClick s (fetchCdnJson resp)).1.allItems = s.allItems ∧
      (getImagesClick s (fetchCdnJson resp)).1.galleryView = GalleryViewG.errorMsg ∧
      (getImagesClick s (fetchCdnJson resp)).1.getImageBtnDisabled = false ∧
      (getImagesClick s (fetchCdnJson resp)).1.dateSelectorDisabled = false ∧
      (getImagesClick s (fetchCdnJson resp)).1.getImageBtnText = "Get Space Images") := by
  constructor
  · have hok : respOk resp = true ↔ (200 ≤ resp.status ∧ resp.status < 300) := by
      simp [respOk]
    cases hr : respOk resp with
    | false =>
      have hnot : ¬ (200 ≤ resp.status ∧ resp.status < 300) := by
        intro hc
        have h1 : respOk resp = true := by simp [respOk, hc.1, hc.2]
        simp [hr] at h1
      simp [fetchCdnJson, hr, hnot]
    | true =>
      rcases hb : resp.body with _ | sh
      · simp [fetchCdnJson, hr, hb]
      · cases sh with
        | arr data =>
          have h2xx := hok.mp hr
          simp [fetchCdnJson, hr, hb, h2xx]
        | nonArray =>
          simp [fetchCdnJson, hr, hb]
  · intro e he hempty
    rw [he]
    simp [getImagesClick, hempty]

/-- C6 witness: a concrete 404 response fails, and the click handler
leaves the empty record set unchanged, shows the error placeholder, and
restores the controls. -/
theorem fetchCdnJson_failure_spec_witness :
    (getImagesClick initialState
        (fetchCdnJson { status := 404, body := none })).1.allItems = [] ∧
    (getImagesClick initialState
        (fetchCdnJson { status := 404, body := none })).1.galleryView
      = GalleryViewG.errorMsg := by
  have h := (fetchCdnJson_failure_spec { status := 404, body := none }
    initialState).2 (.networkError 404) rfl rfl
  exact ⟨h.1, h.2.1⟩

/-- C5 counterexample: the claim says the record set is fetched at most
once after a successful load, with subsequent fetch-trigger activations
reusing the cached records.  Starting from the initial state, a click
whose fetch succeeds with the empty array is a successful load, yet the
next click performs a second network fetch, because the handler caches
only a non-empty record set. -/
theorem fetch_twice_after_successful_load :
    (getImagesClick initialState (Except.ok [])).2 = true ∧
    (getImagesClick (getImagesClick initialState (Except.ok [])).1
        (Except.ok [])).2 = true := by
  decide

/-- C5 amended: the date-selector variant fetches exactly when the
cached record set is empty — an activation with a non-empty cache
performs no fetch and reuses the cached records, an activation with an
empty cache fetches, a successful fetch stores the delivered array, and
a failed fetch leaves the record set empty so the next activation
retries; the plain variant fetches on every activation. -/
theorem fetch_caching_amended (s : AppState)
    (res : Except LoadError (List MediaRecord)) :
    (s.allItems ≠ [] →
      (getImagesClick s res).2 = false ∧
      (getImagesClick s res).1.allItems = s.allItems) ∧
    (s.allItems = [] → (getImagesClick s res).2 = true) ∧
    (s.allItems = [] → ∀ data, res = .ok data →
      (getImagesClick s res).1.allItems = data) ∧
    (s.allItems = [] → ∀ e, res = .error e →
      (getImagesClick s res).1.allItems = []) ∧
    (∀ r, (getImagesClickPlain r).2 = true) := by
  refine ⟨?_, ?_, ?_, ?_, ?_⟩
  · intro h
    have hne : s.allItems.isEmpty = false := by
      simpa [List.isEmpty_iff] using h
    constructor <;> simp [getImagesClick, hne]
  · intro h
    cases res <;> simp [getImagesClick, h]
  · intro h data hres
    subst hres
    simp [getImagesClick, h]
  · intro h e hres
    subst hres
    simp [getImagesClick, h]
  · intro r
    cases r <;> rfl

/-- C5 amended witness: after a successful non-empty load, a further
click performs no fetch and keeps the cached records. -/
theorem fetch_caching_amended_witness :
    (getImagesClick { initialState with allItems := [sampleImageRecord] }
        (Except.ok [])).2 = false ∧
    (getImagesClick { initialState with allItems := [sampleImageRecord] }
        (Except.ok [])).1.allItems = [sampleImageRecord] := by
  have h := fetch_caching_amended
    { initialState with allItems := [sampleImageRecord] } (Except.ok [])
  exact h.1 (by simp)
